import Mathlib

/-!
Verification development for the token lifecycle and authorization
coordination core of the spotify MCP server.

The embedding follows the two source variants:
* `src/index.ts` — the TypeScript variant (no token persistence);
* `src/build/index.js` — the build variant, which adds the Token Store
  (`saveTokens` / `loadTokens`), on-disk token reuse inside
  `spotifyApiRequest`, and an aggressive port-contention path inside
  `startAuthServer`.

Network and disk are modelled as explicit oracles and state: the refresh
endpoint as a `RefreshOutcome`, the resource API as an `ApiOutcome`, the
token file as a `StoreFile`.  The three module-level variables
`accessToken`, `refreshToken`, `tokenExpirationTime` form a `TokenState`.
-/

/-- The three module-level token variables of `src/build/index.js`
(`accessToken : string|null`, `refreshToken : string|null`,
`tokenExpirationTime : number`).  The same shape is what `saveTokens`
serializes to disk and what `JSON.parse` of a well-formed token file
yields, so it doubles as the parsed token-file record. -/
structure TokenState where
  accessToken : Option String
  refreshToken : Option String
  tokenExpirationTime : Int
  deriving DecidableEq, Repr

/-- JavaScript truthiness of a `string | null | undefined` value:
`null`/`undefined` (here `none`) and the empty string are falsy, every
other string is truthy.  This is the semantics of the guards
`if (accessToken ...)`, `if (refreshToken)`,
`if (!tokenData.accessToken || !tokenData.refreshToken)` and
`if (response.data.refresh_token)` in the source. -/
def truthy : Option String → Bool
  | none => false
  | some s => !(s == "")

/-- A null/undefined field is falsy. -/
theorem truthy_none : truthy none = false := rfl

/-- The persisted token file as `loadTokens` (build variant, lines
101–136) observes it through `fs.existsSync` / `fs.readFileSync` /
`JSON.parse`:
* `missing` — `fs.existsSync(TOKEN_PATH)` is false;
* `empty` — the file exists but `rawData.trim() === ''`;
* `invalid` — non-empty content on which `JSON.parse` throws;
* `record d` — valid JSON carrying the three token fields (absent or
  `null` fields are `none`). -/
inductive StoreFile where
  | missing
  | empty
  | invalid
  | record (d : TokenState)
  deriving DecidableEq, Repr

/-- `saveTokens` (build variant, lines 72–96): serializes the three
in-memory fields as JSON and writes them to the token file.  Directory
creation and write-error logging do not affect the stored value on the
nominal path, so the model maps the in-memory state to the file content
it produces. -/
def saveTokens (mem : TokenState) : StoreFile :=
  StoreFile.record mem

/-- `loadTokens` (build variant, lines 101–136): returns `false`
(treating the file as absent, leaving the in-memory state `st`
untouched) on a missing file, an empty file, unparseable content
(`JSON.parse` throws, the `catch` returns `false`), or a parsed record
whose `accessToken` or `refreshToken` field is falsy
(`if (!tokenData.accessToken || !tokenData.refreshToken) return false`).
Otherwise it copies all three fields into memory and returns `true`. -/
def loadTokens (file : StoreFile) (st : TokenState) : Bool × TokenState :=
  match file with
  | StoreFile.missing => (false, st)
  | StoreFile.empty => (false, st)
  | StoreFile.invalid => (false, st)
  | StoreFile.record d =>
      if !(truthy d.accessToken) || !(truthy d.refreshToken) then (false, st)
      else (true, d)

/-- Outcome of one call to the token endpoint with
`grant_type=refresh_token`: either a success response carrying
`access_token`, `expires_in` (seconds) and an optional `refresh_token`
field, or any transport/protocol failure (the `catch` branch). -/
inductive RefreshOutcome where
  | success (newAccessToken : String) (expiresIn : Int) (newRefreshToken : Option String)
  | failure
  deriving DecidableEq, Repr

/-- Result of one `ensureToken()` call (build variant, lines 199–237):
the returned value, the in-memory state and token file afterwards, and
the I/O performed (file reads, file writes, refresh-endpoint calls). -/
structure EnsureResult where
  result : Option String
  mem : TokenState
  file : StoreFile
  loads : Nat
  saves : Nat
  refreshCalls : Nat
  deriving DecidableEq, Repr

/-- First step of `ensureToken` (build variant, lines 201–203):
`if (!accessToken && !refreshToken) loadTokens();` — the state after the
conditional disk read, together with the number of reads performed. -/
def ensureLoadPhase (mem : TokenState) (file : StoreFile) : TokenState × Nat :=
  if !(truthy mem.accessToken) && !(truthy mem.refreshToken) then
    ((loadTokens file mem).2, 1)
  else
    (mem, 0)

/-- `ensureToken` (build variant, lines 199–237) — the Token Manager's
`getValidToken()`:
1. if memory holds no tokens at all, try `loadTokens` (cross-process reuse);
2. if the (possibly freshly loaded) access token is truthy and
   `now < tokenExpirationTime - 60000`, return it with no further I/O;
3. else if a refresh token is truthy, call the refresh endpoint: on
   success overwrite `accessToken`, set
   `tokenExpirationTime = now + expires_in * 1000`, replace
   `refreshToken` only if the response carries a truthy one, then
   `saveTokens()`; on failure reset all three fields and `saveTokens()`;
4. else return `null`. -/
def ensureToken (now : Int) (refresh : RefreshOutcome) (mem : TokenState)
    (file : StoreFile) : EnsureResult :=
  let lp := ensureLoadPhase mem file
  let mem1 := lp.1
  if truthy mem1.accessToken ∧ now < mem1.tokenExpirationTime - 60000 then
    { result := mem1.accessToken, mem := mem1, file := file,
      loads := lp.2, saves := 0, refreshCalls := 0 }
  else if truthy mem1.refreshToken then
    match refresh with
    | RefreshOutcome.success tok expIn newRT =>
        let mem2 : TokenState :=
          { accessToken := some tok,
            refreshToken := if truthy newRT then newRT else mem1.refreshToken,
            tokenExpirationTime := now + expIn * 1000 }
        { result := some tok, mem := mem2, file := saveTokens mem2,
          loads := lp.2, saves := 1, refreshCalls := 1 }
    | RefreshOutcome.failure =>
        let mem2 : TokenState :=
          { accessToken := none, refreshToken := none, tokenExpirationTime := 0 }
        { result := none, mem := mem2, file := saveTokens mem2,
          loads := lp.2, saves := 1, refreshCalls := 1 }
  else
    { result := none, mem := mem1, file := file,
      loads := lp.2, saves := 0, refreshCalls := 0 }

/-- Error taxonomy of `spotifyApiRequest` (build variant), by thrown
message:
* `notAuthenticated` — "Not authenticated. Please authorize the app first.";
* `authenticationExpired` — "Authentication expired. Please authenticate
  again." (pre-call refresh failed or was impossible);
* `authorizationExpired` — "Authorization expired. Please authenticate
  again." (the API answered 401);
* `apiError status` — the generic "Spotify API error: ..." wrapper, with
  the HTTP status when a response was received (`none` for a pure
  transport failure). -/
inductive RequestError where
  | notAuthenticated
  | authenticationExpired
  | authorizationExpired
  | apiError (status : Option Int)
  deriving DecidableEq, Repr

/-- Outcome of the single `axios` resource-API call inside
`spotifyApiRequest`: success, an HTTP error response with a status
(`error.response` present), or a transport failure with no response. -/
inductive ApiOutcome where
  | success
  | httpError (status : Int)
  | transportError
  deriving DecidableEq, Repr

/-- Whether `spotifyApiRequest` returned data or threw. -/
inductive RequestOutcome where
  | ok
  | err (e : RequestError)
  deriving DecidableEq, Repr

/-- Result of one `spotifyApiRequest` call: outcome, in-memory token
state and token file afterwards, and the number of resource-API calls
and refresh-endpoint calls issued. -/
structure RequestResult where
  outcome : RequestOutcome
  mem : TokenState
  file : StoreFile
  apiCalls : Nat
  refreshCalls : Nat
  deriving DecidableEq, Repr

/-- Inline token-file read at the top of `spotifyApiRequest` (build
variant, lines 252–276): when either in-memory token is falsy
(`if (!accessToken || !refreshToken)`), a well-formed token file is
copied into memory field-for-field with NO validation of the fields
(unlike `loadTokens`); a missing/empty/unparseable file leaves memory
unchanged (errors are caught). -/
def requestLoadPhase (mem : TokenState) (file : StoreFile) : TokenState :=
  if !(truthy mem.accessToken) || !(truthy mem.refreshToken) then
    match file with
    | StoreFile.record d => d
    | _ => mem
  else mem

/-- Intermediate result of the pre-call expiry/refresh block of
`spotifyApiRequest` (build variant, lines 281–331): either proceed to
the API call with an (possibly refreshed and re-saved) state, or throw
before any API call is made. -/
inductive RefreshPhaseResult where
  | proceed (mem : TokenState) (file : StoreFile) (refreshCalls : Nat)
  | thrown (mem : TokenState) (file : StoreFile) (e : RequestError) (refreshCalls : Nat)
  deriving DecidableEq, Repr

/-- The pre-call expiry/refresh block of `spotifyApiRequest` (build
variant, lines 281–331): if `now >= tokenExpirationTime - 60000` then
* with a truthy refresh token, call the refresh endpoint; on success
  update memory exactly as `ensureToken` does and write the refreshed
  record to the token file; on failure reset all three fields (WITHOUT
  saving) and throw `authenticationExpired`;
* with no refresh token, clear `accessToken` and `tokenExpirationTime`
  (the falsy `refreshToken` is left as is) and throw
  `authenticationExpired`.
Otherwise proceed unchanged. -/
def requestRefreshPhase (now : Int) (refresh : RefreshOutcome) (mem : TokenState)
    (file : StoreFile) : RefreshPhaseResult :=
  if now ≥ mem.tokenExpirationTime - 60000 then
    if truthy mem.refreshToken then
      match refresh with
      | RefreshOutcome.success tok expIn newRT =>
          let mem2 : TokenState :=
            { accessToken := some tok,
              refreshToken := if truthy newRT then newRT else mem.refreshToken,
              tokenExpirationTime := now + expIn * 1000 }
          RefreshPhaseResult.proceed mem2 (StoreFile.record mem2) 1
      | RefreshOutcome.failure =>
          RefreshPhaseResult.thrown
            { accessToken := none, refreshToken := none, tokenExpirationTime := 0 }
            file RequestError.authenticationExpired 1
    else
      RefreshPhaseResult.thrown
        { accessToken := none, refreshToken := mem.refreshToken, tokenExpirationTime := 0 }
        file RequestError.authenticationExpired 0
  else
    RefreshPhaseResult.proceed mem file 0

/-- `spotifyApiRequest` (build variant, lines 250–361) — the
Authenticated Request Executor:
1. inline token-file read when memory lacks a token (`requestLoadPhase`);
2. throw `notAuthenticated` if there is still no truthy access token;
3. pre-call expiry check and refresh (`requestRefreshPhase`);
4. issue the single resource-API call: on success return the data; on an
   HTTP 401 response clear all three in-memory token fields (the token
   file is NOT rewritten) and throw `authorizationExpired`; on any other
   HTTP error or a transport failure throw the generic `apiError`.
No retry of the resource-API call is performed on any path. -/
def spotifyApiRequest (now : Int) (refresh : RefreshOutcome) (api : ApiOutcome)
    (mem : TokenState) (file : StoreFile) : RequestResult :=
  let mem1 := requestLoadPhase mem file
  if truthy mem1.accessToken then
    match requestRefreshPhase now refresh mem1 file with
    | RefreshPhaseResult.thrown mem2 file2 e rc =>
        { outcome := RequestOutcome.err e, mem := mem2, file := file2,
          apiCalls := 0, refreshCalls := rc }
    | RefreshPhaseResult.proceed mem2 file2 rc =>
        match api with
        | ApiOutcome.success =>
            { outcome := RequestOutcome.ok, mem := mem2, file := file2,
              apiCalls := 1, refreshCalls := rc }
        | ApiOutcome.httpError status =>
            if status = 401 then
              { outcome := RequestOutcome.err RequestError.authorizationExpired,
                mem := { accessToken := none, refreshToken := none,
                         tokenExpirationTime := 0 },
                file := file2, apiCalls := 1, refreshCalls := rc }
            else
              { outcome := RequestOutcome.err (RequestError.apiError (some status)),
                mem := mem2, file := file2, apiCalls := 1, refreshCalls := rc }
        | ApiOutcome.transportError =>
            { outcome := RequestOutcome.err (RequestError.apiError none),
              mem := mem2, file := file2, apiCalls := 1, refreshCalls := rc }
  else
    { outcome := RequestOutcome.err RequestError.notAuthenticated, mem := mem1,
      file := file, apiCalls := 0, refreshCalls := 0 }

/-- The well-known callback port (`const PORT = 8888`). -/
def wellKnownPort : Nat := 8888

/-- Observable outcome of one `startAuthServer()` invocation:
* `resolvedExisting` — this process already held `authServer`; the login
  page of the existing listener is re-opened and the call resolves at
  once, binding nothing new;
* `delegated` — the login route of the server owned by another process
  was opened and the call resolves with no local state created;
* `serverAlreadyRunning port` — the call rejects with
  `ServerAlreadyRunningError(port)`;
* `startedListener` — a local HTTP listener was bound on the port and
  the interactive flow is now pending on it. -/
inductive AuthStartResult where
  | resolvedExisting
  | delegated
  | serverAlreadyRunning (port : Nat)
  | startedListener
  deriving DecidableEq, Repr

/-- `startAuthServer` (TypeScript variant, src/index.ts lines 215–339),
over the environment oracles: `hasAuthServer` (this process already
holds an `authServer`), `portInUse` (`isPortInUse(PORT)`), and
`openSucceeds` (whether `open(login URL)` on the foreign server's login
route succeeds).  With an existing local server it re-opens the login
page and resolves; with the port held by another process it delegates
via the login route or rejects with `ServerAlreadyRunningError(PORT)`;
otherwise it binds the local listener. -/
def startAuthServer (hasAuthServer portInUse openSucceeds : Bool) : AuthStartResult :=
  if hasAuthServer then AuthStartResult.resolvedExisting
  else if portInUse then
    if openSucceeds then AuthStartResult.delegated
    else AuthStartResult.serverAlreadyRunning wellKnownPort
  else AuthStartResult.startedListener

/-- `startAuthServer` (build variant, src/build/index.js lines 375–543),
with the extra oracles `killSucceeds` (the platform-specific
kill-by-port command succeeds) and `stillInUseAfterKill`
(`isPortInUse(PORT)` one second after the kill).  When the port is in
use it first tries to kill the occupying process; if the kill frees the
port the function falls through and binds its own listener; if the kill
command fails — or the port is still in use afterwards, in which case
the `ServerAlreadyRunningError` thrown inside the `try` is caught by the
same `catch (killError)` — it attempts to open the existing server's
login route, resolving on success and rejecting with
`ServerAlreadyRunningError(PORT)` on failure. -/
def startAuthServerBuild
    (hasAuthServer portInUse killSucceeds stillInUseAfterKill openSucceeds : Bool) :
    AuthStartResult :=
  if hasAuthServer then AuthStartResult.resolvedExisting
  else if portInUse then
    if killSucceeds && !stillInUseAfterKill then AuthStartResult.startedListener
    else if openSucceeds then AuthStartResult.delegated
    else AuthStartResult.serverAlreadyRunning wellKnownPort
  else AuthStartResult.startedListener

/-- C5: for every token record whose access token is held in memory and
whose expiry lies more than 60 seconds past `now`, `ensureToken()`
returns the cached access token with the state untouched and zero disk
reads, disk writes and refresh calls. -/
theorem fresh_token_no_io (now : Int) (refresh : RefreshOutcome)
    (mem : TokenState) (file : StoreFile)
    (hA : truthy mem.accessToken = true)
    (hF : now < mem.tokenExpirationTime - 60000) :
    ensureToken now refresh mem file =
      { result := mem.accessToken, mem := mem, file := file,
        loads := 0, saves := 0, refreshCalls := 0 } := by
  unfold ensureToken ensureLoadPhase
  simp [hA, hF]

/-- C5 witness: a concrete fresh record is returned as-is with zero I/O. -/
theorem fresh_token_no_io_witness :
    ensureToken 1000 RefreshOutcome.failure
        { accessToken := some "A", refreshToken := some "R",
          tokenExpirationTime := 500000 } StoreFile.missing =
      { result := some "A",
        mem := { accessToken := some "A", refreshToken := some "R",
                 tokenExpirationTime := 500000 },
        file := StoreFile.missing, loads := 0, saves := 0, refreshCalls := 0 } :=
  fresh_token_no_io 1000 RefreshOutcome.failure
    { accessToken := some "A", refreshToken := some "R",
      tokenExpirationTime := 500000 } StoreFile.missing (by decide) (by decide)

/-- C7: `loadTokens` against a missing file, an empty file, and a file
with unparseable content reports absent (`false`) with the in-memory
state untouched, in all three cases; being a total function it throws
nothing. -/
theorem load_corruption_absent (st : TokenState) :
    loadTokens StoreFile.missing st = (false, st) ∧
    loadTokens StoreFile.empty st = (false, st) ∧
    loadTokens StoreFile.invalid st = (false, st) :=
  ⟨rfl, rfl, rfl⟩

/-- C10: `loadTokens` treats a syntactically valid persisted record in
which `accessToken` or `refreshToken` is null, missing, or empty as
absent: it returns `false` and copies no field into memory. -/
theorem load_incomplete_absent (st d : TokenState)
    (h : truthy d.accessToken = false ∨ truthy d.refreshToken = false) :
    loadTokens (StoreFile.record d) st = (false, st) := by
  unfold loadTokens
  rcases h with h | h <;> simp [h]

/-- C10 witness: the record written after invalidation (all fields
null/zero) is never loaded back as usable. -/
theorem load_incomplete_absent_witness :
    loadTokens
        (StoreFile.record
          { accessToken := none, refreshToken := none, tokenExpirationTime := 0 })
        { accessToken := some "x", refreshToken := some "y",
          tokenExpirationTime := 7 } =
      (false,
        { accessToken := some "x", refreshToken := some "y",
          tokenExpirationTime := 7 }) :=
  load_incomplete_absent
    { accessToken := some "x", refreshToken := some "y", tokenExpirationTime := 7 }
    { accessToken := none, refreshToken := none, tokenExpirationTime := 0 }
    (Or.inl rfl)

/-- C6 counterexample: `saveTokens` of the record with both token fields
null (as written by every invalidation) followed by `loadTokens` in a
fresh process does NOT yield the saved record: the load reports absent
and leaves the fresh process's initial state in place. -/
theorem save_load_roundtrip_cex :
    loadTokens
        (saveTokens
          { accessToken := none, refreshToken := none, tokenExpirationTime := 5 })
        { accessToken := none, refreshToken := none, tokenExpirationTime := 0 } =
      (false,
        { accessToken := none, refreshToken := none, tokenExpirationTime := 0 }) ∧
    ((false,
        ({ accessToken := none, refreshToken := none,
           tokenExpirationTime := 0 } : TokenState)) ≠
      (true,
        ({ accessToken := none, refreshToken := none,
           tokenExpirationTime := 5 } : TokenState))) := by
  decide

/-- C6 amended: the persistence round-trip holds for every record whose
`accessToken` and `refreshToken` are both non-null and non-empty:
`loadTokens` after `saveTokens` yields `true` and the saved record,
whatever state the fresh process started from. -/
theorem save_load_roundtrip_truthy (rec st0 : TokenState)
    (hA : truthy rec.accessToken = true)
    (hR : truthy rec.refreshToken = true) :
    loadTokens (saveTokens rec) st0 = (true, rec) := by
  unfold loadTokens saveTokens
  simp [hA, hR]

/-- C6 amended witness: a concrete fully populated record round-trips. -/
theorem save_load_roundtrip_truthy_witness :
    loadTokens
        (saveTokens
          { accessToken := some "A", refreshToken := some "R",
            tokenExpirationTime := 42 })
        { accessToken := none, refreshToken := none, tokenExpirationTime := 0 } =
      (true,
        { accessToken := some "A", refreshToken := some "R",
          tokenExpirationTime := 42 }) :=
  save_load_roundtrip_truthy
    { accessToken := some "A", refreshToken := some "R", tokenExpirationTime := 42 }
    { accessToken := none, refreshToken := none, tokenExpirationTime := 0 }
    (by decide) (by decide)

/-- C9: in both variants, an authenticate-now request issued while this
process already holds the auth listener (`authServer` non-null, an
interactive flow pending on it) resolves by re-opening the login page of
the existing listener: it never binds a second listener and never starts
a parallel flow, whatever the port and browser oracles report. -/
theorem reentrant_auth_coalesced (portInUse killS stillInUse openS : Bool) :
    startAuthServer true portInUse openS = AuthStartResult.resolvedExisting ∧
    startAuthServerBuild true portInUse killS stillInUse openS =
      AuthStartResult.resolvedExisting ∧
    AuthStartResult.resolvedExisting ≠ AuthStartResult.startedListener := by
  refine ⟨rfl, rfl, by decide⟩

/-- C8 counterexample: in the build variant, starting the coordinator
while the well-known port is bound by another process (no local server,
kill-by-port succeeds and frees the port, the browser open would have
succeeded) binds a local listener — it neither delegates to the other
process nor signals `ServerAlreadyRunning`. -/
theorem port_contention_kill_cex :
    startAuthServerBuild false true true false true =
      AuthStartResult.startedListener ∧
    AuthStartResult.startedListener ≠ AuthStartResult.delegated ∧
    AuthStartResult.startedListener ≠
      AuthStartResult.serverAlreadyRunning wellKnownPort := by
  decide

/-- C8 amended: with the port bound by another process, the TypeScript
variant never starts a local listener — it resolves with the session
delegated when opening the existing server's login route succeeds and
signals `ServerAlreadyRunning(port)` otherwise; the build variant first
attempts to kill the occupying process and binds its own listener when
the kill frees the port, and otherwise behaves like the TypeScript
variant. -/
theorem port_contention_behavior (killS stillInUse openS : Bool) :
    startAuthServer false true openS =
      (if openS then AuthStartResult.delegated
       else AuthStartResult.serverAlreadyRunning wellKnownPort) ∧
    startAuthServerBuild false true killS stillInUse openS =
      (if killS && !stillInUse then AuthStartResult.startedListener
       else if openS then AuthStartResult.delegated
       else AuthStartResult.serverAlreadyRunning wellKnownPort) := by
  cases killS <;> cases stillInUse <;> cases openS <;> exact ⟨rfl, rfl⟩

/-- C3: every refresh exchange actually performed by `ensureToken()`
(`refreshCalls = 1`) that succeeds yields a record whose `accessToken`
is the response's access token, whose `tokenExpirationTime` is
`now + expires_in * 1000`, and whose `refreshToken` is replaced only
when the response carries a truthy new refresh token — otherwise the
refresh token held in memory after the optional cold-start load is
retained; the record is returned and persisted. -/
theorem refresh_success_updates_record (now : Int) (mem : TokenState)
    (file : StoreFile) (tok : String) (expIn : Int) (newRT : Option String)
    (h : (ensureToken now (RefreshOutcome.success tok expIn newRT) mem file).refreshCalls = 1) :
    ensureToken now (RefreshOutcome.success tok expIn newRT) mem file =
      { result := some tok,
        mem := { accessToken := some tok,
                 refreshToken := if truthy newRT then newRT
                                 else (ensureLoadPhase mem file).1.refreshToken,
                 tokenExpirationTime := now + expIn * 1000 },
        file := StoreFile.record
          { accessToken := some tok,
            refreshToken := if truthy newRT then newRT
                            else (ensureLoadPhase mem file).1.refreshToken,
            tokenExpirationTime := now + expIn * 1000 },
        loads := (ensureLoadPhase mem file).2, saves := 1, refreshCalls := 1 } := by
  by_cases h1 : truthy (ensureLoadPhase mem file).1.accessToken = true ∧
      now < (ensureLoadPhase mem file).1.tokenExpirationTime - 60000
  · unfold ensureToken at h
    simp [h1] at h
  · by_cases h2 : truthy (ensureLoadPhase mem file).1.refreshToken = true
    · unfold ensureToken
      simp [h1, h2, saveTokens]
    · unfold ensureToken at h
      simp [h1, h2] at h

/-- C3 witness: the spec's end-to-end instance — from
`{accessToken: "A", refreshToken: "R", expiresAt: now - 1000}` with
`now = 1000000` and a refresh response `{access_token: "B",
expires_in: 3600}` carrying no new refresh token, the resulting record
is `{accessToken: "B", refreshToken: "R", expiresAt: now + 3600000}`. -/
theorem refresh_success_updates_record_witness :
    (ensureToken 1000000 (RefreshOutcome.success "B" 3600 none)
        { accessToken := some "A", refreshToken := some "R",
          tokenExpirationTime := 999000 } StoreFile.missing).refreshCalls = 1 ∧
    ensureToken 1000000 (RefreshOutcome.success "B" 3600 none)
        { accessToken := some "A", refreshToken := some "R",
          tokenExpirationTime := 999000 } StoreFile.missing =
      { result := some "B",
        mem := { accessToken := some "B", refreshToken := some "R",
                 tokenExpirationTime := 4600000 },
        file := StoreFile.record
          { accessToken := some "B", refreshToken := some "R",
            tokenExpirationTime := 4600000 },
        loads := 0, saves := 1, refreshCalls := 1 } :=
  ⟨by decide,
    (refresh_success_updates_record 1000000
        { accessToken := some "A", refreshToken := some "R",
          tokenExpirationTime := 999000 } StoreFile.missing "B" 3600 none
        (by decide)).trans (by decide)⟩

/-- C4: every refresh exchange actually performed by `ensureToken()`
(`refreshCalls = 1`) that fails leaves all three token fields reset —
`accessToken` and `refreshToken` null and `tokenExpirationTime` zero —
both in memory and in the persisted token file, and returns null; no
partial state is retained. -/
theorem refresh_failure_clears_all (now : Int) (mem : TokenState) (file : StoreFile)
    (h : (ensureToken now RefreshOutcome.failure mem file).refreshCalls = 1) :
    (ensureToken now RefreshOutcome.failure mem file).mem =
      { accessToken := none, refreshToken := none, tokenExpirationTime := 0 } ∧
    (ensureToken now RefreshOutcome.failure mem file).file =
      StoreFile.record
        { accessToken := none, refreshToken := none, tokenExpirationTime := 0 } ∧
    (ensureToken now RefreshOutcome.failure mem file).result = none := by
  by_cases h1 : truthy (ensureLoadPhase mem file).1.accessToken = true ∧
      now < (ensureLoadPhase mem file).1.tokenExpirationTime - 60000
  · unfold ensureToken at h
    simp [h1] at h
  · by_cases h2 : truthy (ensureLoadPhase mem file).1.refreshToken = true
    · unfold ensureToken
      simp [h1, h2, saveTokens]
    · unfold ensureToken at h
      simp [h1, h2] at h

/-- C4 witness: a concrete failed refresh resets everything in memory
and on disk. -/
theorem refresh_failure_clears_all_witness :
    (ensureToken 1000000 RefreshOutcome.failure
        { accessToken := some "A", refreshToken := some "R",
          tokenExpirationTime := 0 } StoreFile.missing).refreshCalls = 1 ∧
    ((ensureToken 1000000 RefreshOutcome.failure
        { accessToken := some "A", refreshToken := some "R",
          tokenExpirationTime := 0 } StoreFile.missing).mem =
      { accessToken := none, refreshToken := none, tokenExpirationTime := 0 } ∧
    (ensureToken 1000000 RefreshOutcome.failure
        { accessToken := some "A", refreshToken := some "R",
          tokenExpirationTime := 0 } StoreFile.missing).file =
      StoreFile.record
        { accessToken := none, refreshToken := none, tokenExpirationTime := 0 } ∧
    (ensureToken 1000000 RefreshOutcome.failure
        { accessToken := some "A", refreshToken := some "R",
          tokenExpirationTime := 0 } StoreFile.missing).result = none) :=
  ⟨by decide,
    refresh_failure_clears_all 1000000
      { accessToken := some "A", refreshToken := some "R",
        tokenExpirationTime := 0 } StoreFile.missing (by decide)⟩

/-- C1 counterexample: with a fresh in-memory token {"A","R"} whose
persisted copy is identical and still fresh, a 401 from the Remote API
leaves the token file NOT cleared (the 401 branch writes nothing to
disk), and the very next `ensureToken()` call reloads the persisted
record and returns the stale token "A" — it is not forced through the
refresh-or-authenticate path. -/
theorem invalidation_not_persisted_cex :
    (spotifyApiRequest 0 RefreshOutcome.failure (ApiOutcome.httpError 401)
        { accessToken := some "A", refreshToken := some "R",
          tokenExpirationTime := 10000000 }
        (StoreFile.record
          { accessToken := some "A", refreshToken := some "R",
            tokenExpirationTime := 10000000 })).file ≠
      StoreFile.record
        { accessToken := none, refreshToken := none, tokenExpirationTime := 0 } ∧
    (ensureToken 0 RefreshOutcome.failure
        (spotifyApiRequest 0 RefreshOutcome.failure (ApiOutcome.httpError 401)
            { accessToken := some "A", refreshToken := some "R",
              tokenExpirationTime := 10000000 }
            (StoreFile.record
              { accessToken := some "A", refreshToken := some "R",
                tokenExpirationTime := 10000000 })).mem
        (spotifyApiRequest 0 RefreshOutcome.failure (ApiOutcome.httpError 401)
            { accessToken := some "A", refreshToken := some "R",
              tokenExpirationTime := 10000000 }
            (StoreFile.record
              { accessToken := some "A", refreshToken := some "R",
                tokenExpirationTime := 10000000 })).file).result = some "A" := by
  decide

/-- C1 amended: when the Remote API rejects a fresh access token with a
401, the executor performs exactly one token invalidation clearing all
three in-memory fields and signals `authorizationExpired`, but it does
NOT persist the cleared state — the token file is left unchanged; a
subsequent `getValidToken()` call therefore reloads the persisted record
and, whenever that record is still inside its freshness window, returns
the stale token instead of being forced through the
refresh-or-authenticate path. -/
theorem invalidation_clears_memory_only (now now2 : Int) (mem d : TokenState)
    (refresh refresh2 : RefreshOutcome)
    (hA : truthy mem.accessToken = true) (hR : truthy mem.refreshToken = true)
    (hFresh : now < mem.tokenExpirationTime - 60000)
    (hdA : truthy d.accessToken = true) (hdR : truthy d.refreshToken = true)
    (hdFresh : now2 < d.tokenExpirationTime - 60000) :
    (spotifyApiRequest now refresh (ApiOutcome.httpError 401) mem
        (StoreFile.record d)).outcome =
      RequestOutcome.err RequestError.authorizationExpired ∧
    (spotifyApiRequest now refresh (ApiOutcome.httpError 401) mem
        (StoreFile.record d)).mem =
      { accessToken := none, refreshToken := none, tokenExpirationTime := 0 } ∧
    (spotifyApiRequest now refresh (ApiOutcome.httpError 401) mem
        (StoreFile.record d)).file = StoreFile.record d ∧
    (ensureToken now2 refresh2
        (spotifyApiRequest now refresh (ApiOutcome.httpError 401) mem
            (StoreFile.record d)).mem
        (spotifyApiRequest now refresh (ApiOutcome.httpError 401) mem
            (StoreFile.record d)).file).result = d.accessToken := by
  have hreq : spotifyApiRequest now refresh (ApiOutcome.httpError 401) mem
      (StoreFile.record d) =
      { outcome := RequestOutcome.err RequestError.authorizationExpired,
        mem := { accessToken := none, refreshToken := none,
                 tokenExpirationTime := 0 },
        file := StoreFile.record d, apiCalls := 1, refreshCalls := 0 } := by
    unfold spotifyApiRequest requestLoadPhase requestRefreshPhase
    simp [hA, hR, not_le.mpr hFresh]
  have hens : (ensureToken now2 refresh2
      { accessToken := none, refreshToken := none, tokenExpirationTime := 0 }
      (StoreFile.record d)).result = d.accessToken := by
    unfold ensureToken ensureLoadPhase loadTokens
    simp [truthy_none, hdA, hdR, hdFresh]
  refine ⟨?_, ?_, ?_, ?_⟩
  · rw [hreq]
  · rw [hreq]
  · rw [hreq]
  · rw [hreq]
    exact hens

/-- C1 amended witness: concrete instance of the memory-only
invalidation and the stale reload. -/
theorem invalidation_clears_memory_only_witness :
    truthy (some "C") = true ∧ (7 : Int) < 5000000 - 60000 ∧
    ((spotifyApiRequest 7 RefreshOutcome.failure (ApiOutcome.httpError 401)
        { accessToken := some "C", refreshToken := some "D",
          tokenExpirationTime := 5000000 }
        (StoreFile.record
          { accessToken := some "C", refreshToken := some "D",
            tokenExpirationTime := 5000000 })).outcome =
      RequestOutcome.err RequestError.authorizationExpired ∧
    (spotifyApiRequest 7 RefreshOutcome.failure (ApiOutcome.httpError 401)
        { accessToken := some "C", refreshToken := some "D",
          tokenExpirationTime := 5000000 }
        (StoreFile.record
          { accessToken := some "C", refreshToken := some "D",
            tokenExpirationTime := 5000000 })).mem =
      { accessToken := none, refreshToken := none, tokenExpirationTime := 0 } ∧
    (spotifyApiRequest 7 RefreshOutcome.failure (ApiOutcome.httpError 401)
        { accessToken := some "C", refreshToken := some "D",
          tokenExpirationTime := 5000000 }
        (StoreFile.record
          { accessToken := some "C", refreshToken := some "D",
            tokenExpirationTime := 5000000 })).file =
      StoreFile.record
        { accessToken := some "C", refreshToken := some "D",
          tokenExpirationTime := 5000000 } ∧
    (ensureToken 7 RefreshOutcome.failure
        (spotifyApiRequest 7 RefreshOutcome.failure (ApiOutcome.httpError 401)
            { accessToken := some "C", refreshToken := some "D",
              tokenExpirationTime := 5000000 }
            (StoreFile.record
              { accessToken := some "C", refreshToken := some "D",
                tokenExpirationTime := 5000000 })).mem
        (spotifyApiRequest 7 RefreshOutcome.failure (ApiOutcome.httpError 401)
            { accessToken := some "C", refreshToken := some "D",
              tokenExpirationTime := 5000000 }
            (StoreFile.record
              { accessToken := some "C", refreshToken := some "D",
                tokenExpirationTime := 5000000 })).file).result = some "C") :=
  ⟨by decide, by decide,
    invalidation_clears_memory_only 7 7
      { accessToken := some "C", refreshToken := some "D",
        tokenExpirationTime := 5000000 }
      { accessToken := some "C", refreshToken := some "D",
        tokenExpirationTime := 5000000 }
      RefreshOutcome.failure RefreshOutcome.failure
      (by decide) (by decide) (by decide) (by decide) (by decide) (by decide)⟩

/-- C2 counterexample: an authenticated call with a fresh token that the
Remote API rejects with a 401 issues exactly ONE resource-API call — the
executor does not retry the request after invalidating the token; it
throws `authorizationExpired` instead. -/
theorem no_retry_after_401_cex :
    (spotifyApiRequest 0 RefreshOutcome.failure (ApiOutcome.httpError 401)
        { accessToken := some "A", refreshToken := some "R",
          tokenExpirationTime := 10000000 } StoreFile.missing).apiCalls = 1 ∧
    (spotifyApiRequest 0 RefreshOutcome.failure (ApiOutcome.httpError 401)
        { accessToken := some "A", refreshToken := some "R",
          tokenExpirationTime := 10000000 } StoreFile.missing).apiCalls ≠ 2 ∧
    (spotifyApiRequest 0 RefreshOutcome.failure (ApiOutcome.httpError 401)
        { accessToken := some "A", refreshToken := some "R",
          tokenExpirationTime := 10000000 } StoreFile.missing).outcome =
      RequestOutcome.err RequestError.authorizationExpired := by
  decide

/-- C2 amended: for every authenticated API call that reaches the Remote
API (`apiCalls = 1`) and is rejected with a 401, the executor clears all
three in-memory token fields and signals `authorizationExpired` without
retrying — the call count stays at one, and the decision to
re-authenticate and reissue is left to the caller. -/
theorem request_401_no_retry (now : Int) (refresh : RefreshOutcome)
    (mem : TokenState) (file : StoreFile)
    (h : (spotifyApiRequest now refresh (ApiOutcome.httpError 401) mem file).apiCalls = 1) :
    (spotifyApiRequest now refresh (ApiOutcome.httpError 401) mem file).outcome =
      RequestOutcome.err RequestError.authorizationExpired ∧
    (spotifyApiRequest now refresh (ApiOutcome.httpError 401) mem file).mem =
      { accessToken := none, refreshToken := none, tokenExpirationTime := 0 } ∧
    (spotifyApiRequest now refresh (ApiOutcome.httpError 401) mem file).apiCalls ≠ 2 := by
  by_cases hA : truthy (requestLoadPhase mem file).accessToken = true
  · cases hrp : requestRefreshPhase now refresh (requestLoadPhase mem file) file with
    | proceed mem2 file2 rc =>
        unfold spotifyApiRequest at h ⊢
        simp [hA, hrp]
    | thrown mem2 file2 e rc =>
        unfold spotifyApiRequest at h
        simp [hA, hrp] at h
  · unfold spotifyApiRequest at h
    simp [hA] at h

/-- C2 amended witness: a concrete 401-rejected call makes one API call,
clears memory, and signals `authorizationExpired`. -/
theorem request_401_no_retry_witness :
    (spotifyApiRequest 5 RefreshOutcome.failure (ApiOutcome.httpError 401)
        { accessToken := some "T", refreshToken := some "S",
          tokenExpirationTime := 9000000 } StoreFile.empty).apiCalls = 1 ∧
    ((spotifyApiRequest 5 RefreshOutcome.failure (ApiOutcome.httpError 401)
        { accessToken := some "T", refreshToken := some "S",
          tokenExpirationTime := 9000000 } StoreFile.empty).outcome =
      RequestOutcome.err RequestError.authorizationExpired ∧
    (spotifyApiRequest 5 RefreshOutcome.failure (ApiOutcome.httpError 401)
        { accessToken := some "T", refreshToken := some "S",
          tokenExpirationTime := 9000000 } StoreFile.empty).mem =
      { accessToken := none, refreshToken := none, tokenExpirationTime := 0 } ∧
    (spotifyApiRequest 5 RefreshOutcome.failure (ApiOutcome.httpError 401)
        { accessToken := some "T", refreshToken := some "S",
          tokenExpirationTime := 9000000 } StoreFile.empty).apiCalls ≠ 2) :=
  ⟨by decide,
    request_401_no_retry 5 RefreshOutcome.failure
      { accessToken := some "T", refreshToken := some "S",
        tokenExpirationTime := 9000000 } StoreFile.empty (by decide)⟩
